import Mathlib

/-!
Shallow embedding of the Spotify HTTP client (src/spotifyclient/client.py and
the near-duplicate src/client.py) and proofs about its token caching, command
dispatch, retry, volume, search and pagination logic.

Remote interactions are modelled by passing the transport in as a function
(authorization endpoint, player endpoint, pagination fetches); times are Nat
instants; Python None is Option.none; a raised PermissionError is
Except.error (). Several operations additionally return instrumentation
(call counts, tokens attached per attempt, per-attempt statuses) so that
claims about network traffic can be stated; these extra fields are pure
observations of what the source code does.
-/

/-- Response of the authorization endpoint (POST accounts.spotify.com/api/token):
HTTP status, the optional body field access_token (a body missing the field is
accessToken = none), and the body field expires_in in seconds. -/
structure AuthResp where
  status : Nat
  accessToken : Option String
  expiresIn : Nat
  deriving DecidableEq

/-- Grant type of an authorization request: client_credentials (app scope) or
refresh_token (user scope). -/
inductive GrantType where
  | clientCredentials
  | refreshGrant
  deriving DecidableEq

/-- Form parameters submitted to the authorization endpoint: the grant_type
plus, for the refresh flow, the refresh token. -/
structure AuthParams where
  grant_type : GrantType
  refreshTok : Option String
  deriving DecidableEq

/-- Embeds Spotify._get_generic_auth_params: grant_type=client_credentials. -/
def _get_generic_auth_params : AuthParams := ⟨.clientCredentials, none⟩

/-- Auth params of the user flow for refresh token rt
(the dict built by Spotify._get_user_auth_params on success). -/
def userAuthParams (rt : String) : AuthParams := ⟨.refreshGrant, some rt⟩

/-- Mutable token state of a Spotify instance (src/spotifyclient/client.py
__init__, lines 23-28): the optional refresh token plus the single
access_token / token_expires pair shared by both flows. -/
structure SpotifyState where
  refresh_token : Option String
  access_token : Option String
  token_expires : Option Nat
  deriving DecidableEq

/-- Truth of `self.token_expires > datetime.utcnow()`. The source reads
token_expires only when access_token is set, and the two fields are always
written together; an unset expiry counts as not-in-the-future. -/
def tokenNotExpired (expires : Option Nat) (now : Nat) : Bool :=
  match expires with
  | some e => now < e
  | none => false

/-- Guard of the cache fast path in Spotify._get_access_token (line 57):
`self.access_token is not None and self.token_expires > datetime.utcnow()`. -/
def cacheHit (st : SpotifyState) (now : Nat) : Bool :=
  st.access_token.isSome && tokenNotExpired st.token_expires now

/-- Embeds Spotify._get_access_token (src/spotifyclient/client.py lines 56-76).
e is the authorization endpoint, now the current instant. Returns the pair
(token, expiry) the Python method returns, the state after the call, and, as
instrumentation, the number of calls made to the authorization endpoint. -/
def _get_access_token (e : AuthParams → AuthResp) (now : Nat) (st : SpotifyState)
    (auth_params : AuthParams) :
    (Option String × Option Nat) × SpotifyState × Nat :=
  if cacheHit st now then ((st.access_token, st.token_expires), st, 0)
  else
    let r := e auth_params
    if 200 ≤ r.status ∧ r.status < 400 then
      match r.accessToken with
      | some t =>
          ((some t, some (now + r.expiresIn)),
            { st with access_token := some t, token_expires := some (now + r.expiresIn) }, 1)
      | none => ((none, none), st, 1)
    else ((none, none), st, 1)

/-- Embeds Spotify._get_generic_access_token: fetch with the
client-credentials params, keeping only the token of the returned pair. -/
def _get_generic_access_token (e : AuthParams → AuthResp) (now : Nat)
    (st : SpotifyState) : Option String × SpotifyState × Nat :=
  let res := _get_access_token e now st _get_generic_auth_params
  (res.1.1, res.2)

/-- Embeds Spotify._get_user_auth_params (lines 48-54): raises PermissionError
(modelled as Except.error ()) when refresh_token is None, else returns the
refresh-grant params. -/
def _get_user_auth_params (st : SpotifyState) : Except Unit AuthParams :=
  match st.refresh_token with
  | none => .error ()
  | some rt => .ok (userAuthParams rt)

/-- Embeds Spotify._get_user_access_token: Python evaluates
_get_user_auth_params first (possibly raising), then fetches. -/
def _get_user_access_token (e : AuthParams → AuthResp) (now : Nat)
    (st : SpotifyState) : Except Unit (Option String × SpotifyState × Nat) :=
  match _get_user_auth_params st with
  | .error pe => .error pe
  | .ok p =>
      let res := _get_access_token e now st p
      .ok (res.1.1, res.2)

/-- requests.Response.ok: true iff status_code < 400. -/
def resp_ok (status : Nat) : Bool := status < 400

/-- Keys of the METHODS lookup table (both variants, lines 14-18). -/
def METHODS : List String := ["get", "post", "put"]

/-- Value returned alongside ok by Spotify.submit_command
(src/spotifyclient/client.py line 327): the literal string Success on a 204,
the decoded JSON body (abstract type J) otherwise, or the unknown-method
message string. -/
inductive Payload (J : Type) where
  | success
  | json (body : J)
  | msg (s : String)
  deriving DecidableEq

/-- HTTP response of a player-resource request: status plus decoded JSON body
of abstract type J. -/
structure PlayerResp (J : Type) where
  status : Nat
  body : J
  deriving DecidableEq

/-- Outcome of Spotify.submit_command with instrumentation. ok and payload
form the returned pair; finalState is the token state afterwards; tokensUsed
lists the bearer token attached to each attempt in order, statuses each
attempt's response status, authCalls how often the authorization endpoint was
hit, and lastStatus the status of the terminal (last) response. -/
structure DispatchOut (J : Type) where
  ok : Bool
  payload : Payload J
  finalState : SpotifyState
  tokensUsed : List (Option String)
  statuses : List Nat
  authCalls : Nat
  lastStatus : Nat
  deriving DecidableEq

/-- Embeds Spotify.submit_command (src/spotifyclient/client.py lines 311-327).
player gives the player-resource response as a function of the has_retried
flag and the attached bearer token (method, command and the query and body
parameters are fixed throughout one call, so they are folded into player); e
is the authorization endpoint. A PermissionError raised while building the
user headers propagates as Except.error. On a 401 first attempt the source
recurses once with has_retried=True. -/
def submit_command {J : Type} (e : AuthParams → AuthResp)
    (player : Bool → Option String → PlayerResp J) (now : Nat) (st : SpotifyState)
    (method : String) (has_retried : Bool) : Except Unit (DispatchOut J) :=
  if method ∈ METHODS then
    match _get_user_access_token e now st with
    | .error pe => .error pe
    | .ok (tok, st1, n1) =>
        let r := player has_retried tok
        if h : r.status = 401 ∧ has_retried = false then
          match submit_command e player now st1 method true with
          | .error pe => .error pe
          | .ok out =>
              .ok { out with tokensUsed := tok :: out.tokensUsed,
                             statuses := r.status :: out.statuses,
                             authCalls := n1 + out.authCalls }
        else
          .ok { ok := resp_ok r.status
                payload := if r.status = 204 then .success else .json r.body
                finalState := st1
                tokensUsed := [tok]
                statuses := [r.status]
                authCalls := n1
                lastStatus := r.status }
  else
    .ok { ok := false, payload := .msg ("Unknown command type \"" ++ method ++ "\"")
          finalState := st, tokensUsed := [], statuses := [], authCalls := 0
          lastStatus := 0 }
termination_by (if has_retried then 0 else 1)
decreasing_by simp [h.2]

/-- Access-token fetch of the src/client.py variant (lines 65-80): no cache,
one endpoint call per fetch, returning the token or None. -/
def CP_get_access_token (e : AuthParams → AuthResp) (auth_params : AuthParams) :
    Option String :=
  let r := e auth_params
  if 200 ≤ r.status ∧ r.status < 400 then r.accessToken else none

/-- User-token fetch of the src/client.py variant: PermissionError when no
refresh token is configured. -/
def CP_get_user_access_token (e : AuthParams → AuthResp)
    (refreshTok : Option String) : Except Unit (Option String) :=
  match refreshTok with
  | none => .error ()
  | some rt => .ok (CP_get_access_token e (userAuthParams rt))

/-- HTTP response as consumed by the src/client.py submit_command: status plus
response text. -/
structure CPResp where
  status : Nat
  text : String
  deriving DecidableEq

/-- Outcome of the src/client.py submit_command with the same instrumentation
fields as DispatchOut. -/
structure CPOut where
  ok : Bool
  message : String
  tokensUsed : List (Option String)
  statuses : List Nat
  lastStatus : Nat
  deriving DecidableEq

/-- Embeds submit_command of src/client.py (lines 322-342): ok is
status == 204 and the message embeds method, command, code and, when
non-empty, the response text. -/
def CP_submit_command (e : AuthParams → AuthResp)
    (player : Bool → Option String → CPResp) (refreshTok : Option String)
    (method command : String) (has_retried : Bool) : Except Unit CPOut :=
  if method ∈ METHODS then
    match CP_get_user_access_token e refreshTok with
    | .error pe => .error pe
    | .ok tok =>
        let r := player has_retried tok
        if h : r.status = 401 ∧ has_retried = false then
          match CP_submit_command e player refreshTok method command true with
          | .error pe => .error pe
          | .ok out =>
              .ok { out with tokensUsed := tok :: out.tokensUsed,
                             statuses := r.status :: out.statuses }
        else
          let base := "Method: " ++ method ++ " | Command: " ++ command ++
            " | Code: " ++ toString r.status
          let response_message :=
            if r.text ≠ "" then base ++ " | Message: " ++ r.text else base
          .ok { ok := decide (r.status = 204), message := response_message
                tokensUsed := [tok], statuses := [r.status], lastStatus := r.status }
  else
    .ok { ok := false, message := "Unknown command type \"" ++ method ++ "\""
          tokensUsed := [], statuses := [], lastStatus := 0 }
termination_by (if has_retried then 0 else 1)
decreasing_by simp [h.2]

/-- One page of a paged result collection as read by extract_data: the items
list and the value of the next field (None is none). -/
structure Page (I : Type) where
  items : List I
  next : Option String
  deriving DecidableEq

/-- Response to fetching a next cursor inside extract_data: the HTTP status,
the message at body error.message (read only on failure), and the page at the
requested field of the body (read only on success). -/
structure PageResp (I : Type) where
  status : Nat
  errorMessage : String
  page : Page I
  deriving DecidableEq

/-- Truth of the Python loop guard `next_items and len(next_items) > 0`: the
cursor is followed only when present and non-empty. -/
def cursorTruthy : Option String → Bool
  | none => false
  | some s => s.length > 0

/-- Embeds the keying step every extractor performs on one item
(e.g. extract_artist, lines 346-352): `index = len(results);
results[index] = record` appends the record, keyed by the current result-set
size, to the insertion-ordered dict (modelled as an association list). The
record-building part of each extractor is the pure function f. -/
def extract_step {I R : Type} (f : I → R) (results : List (Nat × R)) (item : I) :
    List (Nat × R) :=
  results ++ [(results.length, f item)]

/-- Embeds `for item in data['items']: extract_method(item, results)`. -/
def extract_page {I R : Type} (f : I → R) (results : List (Nat × R))
    (items : List I) : List (Nat × R) :=
  items.foldl (extract_step f) results

/-- Embeds the `while next_items and len(next_items) > 0` loop of extract_data
(lines 428-441). The successive cursor fetches are stubbed by the responses
list, consumed in order; an empty list with a still-truthy cursor is a
modelling artifact (the stub stream ran out) and stops the loop. Returns the
accumulated results together with the lines printed on errors. -/
def extract_pages_loop {I R : Type} (f : I → R) :
    List (PageResp I) → Option String → List (Nat × R) →
    List (Nat × R) × List String
  | _, none, results => (results, [])
  | [], some s, results => if s.length > 0 then (results, []) else (results, [])
  | r :: rest, some s, results =>
      if s.length > 0 then
        if r.status ≠ 200 then
          (results, ["Error getting results: " ++ r.errorMessage])
        else
          let data := r.page
          extract_pages_loop f rest data.next (extract_page f results data.items)
      else (results, [])

/-- Embeds Spotify.extract_data (src/spotifyclient/client.py lines 418-443;
src/client.py lines 449-477 is identical up to JSON decoding): extract the
initial page, then, when all_pages, follow next cursors. Returns the results
mapping and the printed error lines. -/
def extract_data {I R : Type} (responses : List (PageResp I)) (data : Page I)
    (all_pages : Bool) (extract_method : I → R) :
    List (Nat × R) × List String :=
  let results := extract_page extract_method [] data.items
  let next_items := data.next
  if all_pages then extract_pages_loop extract_method responses next_items results
  else (results, [])

/-- Artist item as consumed by extract_artist: the name and uri fields. -/
structure ArtistItem where
  name : String
  uri : String
  deriving DecidableEq

/-- Album item as consumed by extract_album: name, uri and the names of the
artist objects in its artists list. -/
structure AlbumItem where
  name : String
  uri : String
  artists : List String
  deriving DecidableEq

/-- Track item as consumed by extract_track: name, uri, artist names and the
album name at track.album.name. -/
structure TrackItem where
  name : String
  uri : String
  artists : List String
  album_name : String
  deriving DecidableEq

/-- Record built per artist: {name, uri}. -/
structure ArtistRec where
  name : String
  uri : String
  deriving DecidableEq

/-- Record built per album or track: {display_name, name, uri}. -/
structure DisplayRec where
  display_name : String
  name : String
  uri : String
  deriving DecidableEq

/-- Record-building part of extract_artist (lines 346-352). -/
def extract_artist (a : ArtistItem) : ArtistRec := ⟨a.name, a.uri⟩

/-- Record-building part of extract_album (lines 354-365):
display_name is "Name(Artist1, Artist2)" with no space before the paren. -/
def extract_album (a : AlbumItem) : DisplayRec :=
  ⟨a.name ++ "(" ++ String.intercalate ", " a.artists ++ ")", a.name, a.uri⟩

/-- Record-building part of extract_track (lines 367-381):
display_name is "Name (Album by Artist1, Artist2)". -/
def extract_track (t : TrackItem) : DisplayRec :=
  ⟨t.name ++ " (" ++ t.album_name ++ " by " ++ String.intercalate ", " t.artists ++ ")",
    t.name, t.uri⟩

/-- Body of the catalog-search response as read by search_tracks: the message
at error.message (read on failure) and the three optional category pages;
none models a category that is absent or falsy under
`results_data.get('artists', [])` / `if artists_data:`. -/
structure SearchBody where
  errorMessage : String
  artists : Option (Page ArtistItem)
  albums : Option (Page AlbumItem)
  tracks : Option (Page TrackItem)

/-- Response of one catalog-search request. -/
structure SearchResp where
  status : Nat
  body : SearchBody

/-- SearchResults: the fixed-key mapping built by search_tracks. -/
structure SearchResults where
  artists : List (Nat × ArtistRec)
  albums : List (Nat × DisplayRec)
  tracks : List (Nat × DisplayRec)
  deriving DecidableEq

/-- Embeds the q parameter construction of search_tracks
(src/spotifyclient/client.py lines 384-388). -/
def buildSearchQuery (search_term : String) (types : List String)
    (exact_match : Bool) : String :=
  if exact_match then
    String.intercalate " " (types.map (fun t => t ++ ":" ++ search_term))
  else search_term

/-- Embeds Spotify.search_tracks (src/spotifyclient/client.py lines 344-416)
from the response on. The function issues exactly one catalog-search request:
only the head of the stubbed responses list is ever consumed (an empty stub
list is a modelling artifact). The three page-response lists stub the cursor
fetches performed by the extract_data delegations. Returns the optional
SearchResults plus all printed error lines. -/
def search_tracks (responses : List SearchResp)
    (artistPages : List (PageResp ArtistItem)) (albumPages : List (PageResp AlbumItem))
    (trackPages : List (PageResp TrackItem)) (all_pages : Bool) :
    Option SearchResults × List String :=
  match responses with
  | [] => (none, [])
  | r :: _ =>
      if r.status ≠ 200 then
        (none, ["Error getting results: " ++ r.body.errorMessage])
      else
        let ra := match r.body.artists with
          | some d => extract_data artistPages d all_pages extract_artist
          | none => ([], [])
        let rb := match r.body.albums with
          | some d => extract_data albumPages d all_pages extract_album
          | none => ([], [])
        let rc := match r.body.tracks with
          | some d => extract_data trackPages d all_pages extract_track
          | none => ([], [])
        (some ⟨ra.1, rb.1, rc.1⟩, ra.2 ++ rb.2 ++ rc.2)

/-- Device entry as consumed by get_current_volume: id and volume_percent. -/
structure VolDevice where
  id : String
  volume_percent : Int
  deriving DecidableEq

/-- Embeds the device-scanning loop of get_current_volume: first device whose
id matches wins, otherwise None. -/
def findDeviceVolume (device_id : String) : List VolDevice → Option Int
  | [] => none
  | d :: ds => if d.id = device_id then some d.volume_percent else findDeviceVolume device_id ds

/-- Embeds Spotify.get_current_volume (src/spotifyclient/client.py lines
115-125). devices_result models the pair returned by self._get('devices')
with the body already projected to its devices list: (result, devices). -/
def get_current_volume (devices_result : Bool × List VolDevice)
    (device_id : String) : Option Int :=
  if devices_result.1 = false then none
  else findDeviceVolume device_id devices_result.2

/-- Embeds Spotify.set_device_volume (lines 133-134): put_volume models
`self._put('volume', query_params={'volume_percent': volume})` as a function
of the volume_percent query parameter being sent. -/
def set_device_volume (put_volume : Int → Bool × String) (volume : Int) :
    Bool × String :=
  put_volume volume

/-- Embeds Spotify.change_volume (lines 127-131): read the current volume,
fail if absent, else PUT the changed volume clamped via
`min(max(current_volume + change, 0), 100)`. -/
def change_volume (devices_result : Bool × List VolDevice)
    (put_volume : Int → Bool × String) (device_id : String) (change : Int) :
    Bool × String :=
  match get_current_volume devices_result device_id with
  | none => (false, "Failed to change volume: Error getting current volume")
  | some current_volume =>
      set_device_volume put_volume (min (max (current_volume + change) 0) 100)

/-- Device entry of the devices endpoint as consumed by
get_available_devices: the name and id fields. -/
structure DevItem where
  name : String
  id : String
  deriving DecidableEq

/-- Response of the GET me/player/devices request: status, response text and
the devices list of the decoded body. -/
structure DevicesResp where
  status : Nat
  text : String
  devices : List DevItem
  deriving DecidableEq

/-- Embeds `for index, device in enumerate(...): returned_devices[index+1] =
{...}` (lines 241-247): keys start at 1. -/
def numberDevices : Nat → List DevItem → List (Nat × DevItem)
  | _, [] => []
  | i, d :: ds => (i + 1, d) :: numberDevices (i + 1) ds

/-- Track fields of one recently-played item as consumed by
get_recently_played; artist0_name and album_image0_url are the values at
track.artists[0].name and track.album.images[0].url. -/
structure RecentTrackIn where
  artist0_name : String
  name : String
  album_name : String
  album_image0_url : String
  preview_url : String
  deriving DecidableEq

/-- One entry of the recently-played items list. -/
structure RecentItem where
  track : RecentTrackIn
  played_at : String
  deriving DecidableEq

/-- Response of the GET me/player/recently-played request. -/
structure RecentResp where
  status : Nat
  items : List RecentItem
  deriving DecidableEq

/-- Record built per recently-played item (the six values appended either as
a dict when as_json or as a tuple otherwise; both carry exactly these
fields, so one record type models both container shapes). -/
structure RecentOut where
  artist_name : String
  track_name : String
  album_name : String
  played_at_friendly : String
  preview_url : String
  album_image_url : String
  deriving DecidableEq

/-- Return value of the player-history operations: the heterogeneous Python
pairs (error-string, None), (None, devices dict), (None, items list) and the
all_data variant (None, raw items with the two added date fields). -/
inductive PlayerReturn where
  | failure (msg : String)
  | deviceMap (m : List (Nat × DevItem))
  | recentItems (xs : List RecentOut)
  | recentRaw (xs : List (RecentItem × String))
  deriving DecidableEq

/-- Embeds Spotify.get_available_devices (src/spotifyclient/client.py lines
229-247): on a 401 first attempt recurse once with has_retried=True; on a 401
retry return the failure string; otherwise number the devices from 1.
transport gives the response as a function of the has_retried flag. -/
def get_available_devices (transport : Bool → DevicesResp) (has_retried : Bool) :
    PlayerReturn :=
  let r := transport has_retried
  if h : r.status = 401 ∧ has_retried = false then
    get_available_devices transport true
  else if r.status = 401 then
    .failure ("Failed to refresh access: Type: \"get\" | Command: \"devices\" | Code: " ++
      toString r.status ++ " " ++ "| Text: " ++ r.text)
  else
    .deviceMap (numberDevices 0 r.devices)
termination_by (if has_retried then 0 else 1)
decreasing_by simp [h.2]

/-- Embeds Spotify.get_recently_played (src/spotifyclient/client.py lines
249-296). recent is the response of the one recently-played request; fmt
renders a played_at string the way the source's strptime/strftime pair does
(wall-clock formatting, outside every claim). The source sets a local
has_retried = False right before the status check, so the 401 branch always
dispatches to get_available_devices(True); the Unauthorised arm is dead code,
kept here as in the source. -/
def get_recently_played (recent : RecentResp) (transport : Bool → DevicesResp)
    (fmt : String → String) (as_json all_data : Bool) : PlayerReturn :=
  let r := recent
  let has_retried := false
  if r.status = 401 then
    if has_retried = false then get_available_devices transport true
    else .failure ("Unauthorised | Code: " ++ toString r.status)
  else if all_data then
    .recentRaw (r.items.map (fun it => (it, fmt it.played_at)))
  else
    .recentItems (r.items.map (fun it =>
      { artist_name := it.track.artist0_name
        track_name := it.track.name
        album_name := it.track.album_name
        played_at_friendly := fmt it.played_at
        preview_url := it.track.preview_url
        album_image_url := it.track.album_image0_url }))

/-- Claim C4: a token fetch through _get_access_token performed while a cached
token exists and its expiry is strictly in the future returns the cached token
and makes zero calls to the authorization endpoint, leaving the state
unchanged. -/
theorem C4_cached_token_no_network (e : AuthParams → AuthResp) (now : Nat)
    (st : SpotifyState) (p : AuthParams) (t : String)
    (ht : st.access_token = some t)
    (he : tokenNotExpired st.token_expires now = true) :
    _get_access_token e now st p = ((some t, st.token_expires), st, 0) := by
  unfold _get_access_token cacheHit
  simp [ht, he]

/-- Witness for C4 at a concrete cached state: expiry 10 is after now 5 and
the endpoint (which would answer 500) is never consulted. -/
theorem C4_cached_token_no_network_witness :
    _get_access_token (fun _a => ⟨500, none, 0⟩) 5 ⟨some "R", some "T", some 10⟩
        _get_generic_auth_params
      = ((some "T", some 10), ⟨some "R", some "T", some 10⟩, 0) :=
  C4_cached_token_no_network _ 5 _ _ "T" rfl rfl

/-- Counterexample to claim C2: the two flows do not keep separate caches.
The endpoint grants token G to the client-credentials flow and token U to the
refresh flow; after a generic (app-scope) fetch at instant 0 caches G, a
user-scope fetch at instant 10 returns that same G with zero endpoint calls,
so a token obtained via the client-credentials flow satisfies a
refresh-token-flow fetch. -/
theorem C2_counterexample_shared_cache :
    (_get_generic_access_token
        (fun p => match p.grant_type with
          | .clientCredentials => ⟨200, some "G", 3600⟩
          | .refreshGrant => ⟨200, some "U", 3600⟩) 0 ⟨some "R", none, none⟩).1
      = some "G" ∧
    _get_user_access_token
        (fun p => match p.grant_type with
          | .clientCredentials => ⟨200, some "G", 3600⟩
          | .refreshGrant => ⟨200, some "U", 3600⟩) 10
        ⟨some "R", some "G", some 3600⟩
      = .ok (some "G", ⟨some "R", some "G", some 3600⟩, 0) := by
  constructor <;> rfl

/-- Claim C2 as amended: the instance holds a single access_token/token_expires
pair shared by both flows; whenever a cached unexpired token exists, the
generic fetch and (given a configured refresh token) the user fetch both
return that same cached token with zero authorization-endpoint calls,
regardless of which flow stored it. -/
theorem C2_amended_shared_cache (e : AuthParams → AuthResp) (now : Nat)
    (st : SpotifyState) (t rt : String)
    (hrt : st.refresh_token = some rt) (ht : st.access_token = some t)
    (he : tokenNotExpired st.token_expires now = true) :
    _get_generic_access_token e now st = (some t, st, 0) ∧
    _get_user_access_token e now st = .ok (some t, st, 0) := by
  constructor
  · unfold _get_generic_access_token _get_access_token cacheHit
    simp [ht, he]
  · unfold _get_user_access_token _get_user_auth_params
    rw [hrt]
    unfold _get_access_token cacheHit
    simp [ht, he]

/-- Witness for the amended C2 at a concrete state holding cached token T. -/
theorem C2_amended_shared_cache_witness :
    _get_generic_access_token (fun _a => ⟨500, none, 0⟩) 5 ⟨some "R", some "T", some 10⟩
      = (some "T", ⟨some "R", some "T", some 10⟩, 0) ∧
    _get_user_access_token (fun _a => ⟨500, none, 0⟩) 5 ⟨some "R", some "T", some 10⟩
      = .ok (some "T", ⟨some "R", some "T", some 10⟩, 0) :=
  C2_amended_shared_cache _ 5 _ "T" "R" rfl rfl rfl

/-- Claim C7: the user-scope token fetch raises PermissionError exactly when
the refresh token is absent; with a refresh token configured it never raises,
and on a cache miss a non-2xx/3xx authorization status or a body missing
access_token yields the absent-token result (and one endpoint call). -/
theorem C7_user_token_error_handling (e : AuthParams → AuthResp) (now : Nat)
    (st : SpotifyState) :
    (st.refresh_token = none → _get_user_access_token e now st = .error ()) ∧
    (∀ rt, st.refresh_token = some rt →
      (∃ res, _get_user_access_token e now st = .ok res) ∧
      (cacheHit st now = false →
        (¬ (200 ≤ (e (userAuthParams rt)).status ∧ (e (userAuthParams rt)).status < 400) ∨
          (e (userAuthParams rt)).accessToken = none) →
        _get_user_access_token e now st = .ok (none, st, 1))) := by
  constructor
  · intro hn
    unfold _get_user_access_token _get_user_auth_params
    rw [hn]
  · intro rt hrt
    constructor
    · exact ⟨_, by unfold _get_user_access_token _get_user_auth_params; rw [hrt]⟩
    · intro hmiss hbad
      unfold _get_user_access_token _get_user_auth_params
      rw [hrt]
      unfold _get_access_token
      rw [hmiss]
      rcases hbad with hbad | hbad
      · simp [hbad]
      · by_cases hs : 200 ≤ (e (userAuthParams rt)).status ∧ (e (userAuthParams rt)).status < 400
        · simp [hs, hbad]
        · simp [hs]

/-- Witness for C7: with no refresh token the fetch raises; with refresh token
R and an endpoint answering 500 it returns the absent-token result. -/
theorem C7_user_token_error_handling_witness :
    _get_user_access_token (fun _a => ⟨500, none, 0⟩) 0 ⟨none, none, none⟩ = .error () ∧
    _get_user_access_token (fun _a => ⟨500, none, 0⟩) 0 ⟨some "R", none, none⟩
      = .ok (none, ⟨some "R", none, none⟩, 1) :=
  ⟨(C7_user_token_error_handling (fun _a => ⟨500, none, 0⟩) 0 ⟨none, none, none⟩).1 rfl,
   ((C7_user_token_error_handling (fun _a => ⟨500, none, 0⟩) 0 ⟨some "R", none, none⟩).2
      "R" rfl).2 rfl (Or.inl (by decide))⟩

/-- Claim C9: when the current volume reads successfully, change_volume issues
the PUT with the current volume plus the change clamped into 0..100 — the
universally quantified put_volume transport pins the exact volume_percent
sent; in particular current volume 95 with change +10 sends 100. -/
theorem C9_change_volume_clamps (devices_result : Bool × List VolDevice)
    (put_volume : Int → Bool × String) (device_id : String) (change cv : Int)
    (hcv : get_current_volume devices_result device_id = some cv) :
    change_volume devices_result put_volume device_id change
      = put_volume (min (max (cv + change) 0) 100) ∧
    (∀ p2 : Int → Bool × String,
      change_volume (true, [⟨"D", 95⟩]) p2 "D" 10 = p2 100) := by
  constructor
  · unfold change_volume set_device_volume
    rw [hcv]
  · intro p2
    rfl

/-- Witness for C9 at a device list holding device D at volume 95. -/
theorem C9_change_volume_clamps_witness :
    change_volume (true, [⟨"D", 95⟩]) (fun v => (true, toString v)) "D" 10
      = (fun v => ((true : Bool), toString v)) 100 :=
  (C9_change_volume_clamps (true, [⟨"D", 95⟩]) (fun v => (true, toString v)) "D" 10 95
    rfl).1

/-- One extraction step keeps the key sequence dense and zero-based. -/
theorem extract_step_keys {I R : Type} (f : I → R) (res : List (Nat × R)) (a : I)
    (h : res.map Prod.fst = List.range res.length) :
    (extract_step f res a).map Prod.fst = List.range (extract_step f res a).length := by
  simp [extract_step, h, List.range_succ]

/-- Extracting a whole page keeps the key sequence dense and zero-based. -/
theorem extract_page_keys {I R : Type} (f : I → R) (items : List I) :
    ∀ res : List (Nat × R), res.map Prod.fst = List.range res.length →
      (extract_page f res items).map Prod.fst = List.range (extract_page f res items).length := by
  induction items with
  | nil => intro res h; simpa [extract_page] using h
  | cons a l ih =>
      intro res h
      simpa [extract_page, List.foldl_cons] using
        ih (extract_step f res a) (extract_step_keys f res a h)

/-- The pagination loop keeps the key sequence dense and zero-based. -/
theorem extract_pages_loop_keys {I R : Type} (f : I → R)
    (responses : List (PageResp I)) :
    ∀ (nxt : Option String) (res : List (Nat × R)),
      res.map Prod.fst = List.range res.length →
      (extract_pages_loop f responses nxt res).1.map Prod.fst
        = List.range (extract_pages_loop f responses nxt res).1.length := by
  induction responses with
  | nil =>
      intro nxt res h
      cases nxt with
      | none => simpa [extract_pages_loop] using h
      | some s => by_cases hs : s.length > 0 <;> simpa [extract_pages_loop, hs] using h
  | cons r rest ih =>
      intro nxt res h
      cases nxt with
      | none => simpa [extract_pages_loop] using h
      | some s =>
          by_cases hs : s.length > 0
          · by_cases hst : r.status ≠ 200
            · simpa [extract_pages_loop, hs, hst] using h
            · simpa [extract_pages_loop, hs, hst] using
                ih r.page.next (extract_page f res r.page.items)
                  (extract_page_keys f r.page.items res h)
          · simpa [extract_pages_loop, hs] using h

/-- Extracting a page appends the per-item records, keyed consecutively from
the current result-set size. -/
theorem extract_page_enumFrom {I R : Type} (f : I → R) (items : List I) :
    ∀ res : List (Nat × R),
      extract_page f res items = res ++ (items.map f).enumFrom res.length := by
  induction items with
  | nil => intro res; simp [extract_page, List.enumFrom]
  | cons a l ih =>
      intro res
      rw [extract_page, List.foldl_cons, ← extract_page, ih (extract_step f res a)]
      simp [extract_step, List.enumFrom_cons, List.append_assoc]

/-- Claim C5: extract_data applies the extractor to every item of the initial
page with dense, zero-based, insertion-ordered integer keys (each record keyed
at the result-set size when it is added); with all_pages=false only the
initial page is used; keys stay dense while following next cursors; and three
stubbed pages of 2/2/1 items with all_pages=true yield 5 entries keyed 0..4 in
encountered order, while all_pages=false yields only the first 2. -/
theorem C5_extractor_keys_dense_and_pagination :
    (∀ (I R : Type) (f : I → R) (responses : List (PageResp I)) (d : Page I) (ap : Bool),
      (extract_data responses d ap f).1.map Prod.fst
        = List.range (extract_data responses d ap f).1.length) ∧
    (∀ (I R : Type) (f : I → R) (responses : List (PageResp I)) (d : Page I),
      (extract_data responses d false f).1 = (d.items.map f).enum) ∧
    (extract_data
        [⟨200, "", ⟨[12, 13], some "p3"⟩⟩, ⟨200, "", ⟨[14], none⟩⟩]
        (⟨[10, 11], some "p2"⟩ : Page Nat) true (fun n => n)
      = ([(0, 10), (1, 11), (2, 12), (3, 13), (4, 14)], []) ∧
     extract_data
        [⟨200, "", ⟨[12, 13], some "p3"⟩⟩, ⟨200, "", ⟨[14], none⟩⟩]
        (⟨[10, 11], some "p2"⟩ : Page Nat) false (fun n => n)
      = ([(0, 10), (1, 11)], [])) := by
  refine ⟨?_, ?_, by decide, by decide⟩
  · intro I R f responses d ap
    have hinit : (extract_page f ([] : List (Nat × R)) d.items).map Prod.fst
        = List.range (extract_page f ([] : List (Nat × R)) d.items).length :=
      extract_page_keys f d.items [] (by simp)
    cases ap with
    | false => simpa [extract_data] using hinit
    | true =>
        simpa [extract_data] using
          extract_pages_loop_keys f responses d.next _ hinit
  · intro I R f responses d
    simp [extract_data, extract_page_enumFrom, List.enum]

/-- A non-200 response to a cursor fetch makes the loop return the accumulated
results unchanged, with only the printed error line. -/
theorem extract_pages_loop_stops {I R : Type} (f : I → R) (r : PageResp I)
    (rest : List (PageResp I)) (nxt : Option String) (res : List (Nat × R))
    (htr : cursorTruthy nxt = true) (hbad : r.status ≠ 200) :
    extract_pages_loop f (r :: rest) nxt res
      = (res, ["Error getting results: " ++ r.errorMessage]) := by
  cases nxt with
  | none => simp [cursorTruthy] at htr
  | some s =>
      have hs : s.length > 0 := by simpa [cursorTruthy] using htr
      simp [extract_pages_loop, hs, hbad]

/-- Claim C6: with all_pages=true, a non-200 status on a cursor fetch stops
pagination at once: the mapping accumulated so far is returned unchanged (in
particular, failing on the very first cursor fetch returns exactly the
initial page's extraction, the all_pages=false result), nothing is raised, and
the spec's scenario — page 1 of two items succeeds, page 2's fetch answers
500 — returns page 1's two entries only. -/
theorem C6_pagination_stops_on_non200 (I R : Type) (f : I → R) (r : PageResp I)
    (rest : List (PageResp I)) (d : Page I) (hbad : r.status ≠ 200) :
    (extract_data (r :: rest) d true f).1 = (extract_data [] d false f).1 ∧
    (∀ (nxt : Option String) (res : List (Nat × R)), cursorTruthy nxt = true →
      extract_pages_loop f (r :: rest) nxt res
        = (res, ["Error getting results: " ++ r.errorMessage])) ∧
    extract_data [⟨500, "server error", ⟨[], none⟩⟩]
        (⟨[10, 11], some "p2"⟩ : Page Nat) true (fun n => n)
      = ([(0, 10), (1, 11)], ["Error getting results: server error"]) := by
  refine ⟨?_, fun nxt res htr => extract_pages_loop_stops f r rest nxt res htr hbad,
    by decide⟩
  by_cases htr : cursorTruthy d.next = true
  · rw [extract_data, extract_data,
      extract_pages_loop_stops f r rest d.next _ htr hbad]
    simp
  · have htf : cursorTruthy d.next = false := by
      cases hc : cursorTruthy d.next
      · rfl
      · exact absurd hc htr
    cases hn : d.next with
    | none => simp [extract_data, extract_pages_loop, hn]
    | some s =>
        have hs : ¬ s.length > 0 := by
          simpa [cursorTruthy, hn] using htf
        simp [extract_data, extract_pages_loop, hn, hs]

/-- Witness for C6 at the spec's concrete scenario (500 on the second page). -/
theorem C6_pagination_stops_on_non200_witness :
    (extract_data [⟨500, "server error", (⟨[], none⟩ : Page Nat)⟩]
        (⟨[10, 11], some "p2"⟩ : Page Nat) true (fun n => n)).1
      = (extract_data [] (⟨[10, 11], some "p2"⟩ : Page Nat) false (fun n => n)).1 :=
  (C6_pagination_stops_on_non200 Nat Nat (fun n => n)
    ⟨500, "server error", ⟨[], none⟩⟩ [] ⟨[10, 11], some "p2"⟩ (by decide)).1

/-- Claim C8: a catalog-search response with a non-200 status makes
search_tracks report the error message embedded in the body and return the
absent value; the stubbed rest of the response stream is arbitrary and unused,
so no second request is issued — even when the status is 401. -/
theorem C8_search_non200_returns_none_no_retry (r : SearchResp)
    (rest : List SearchResp) (artistPages : List (PageResp ArtistItem))
    (albumPages : List (PageResp AlbumItem)) (trackPages : List (PageResp TrackItem))
    (all_pages : Bool) (hbad : r.status ≠ 200) :
    search_tracks (r :: rest) artistPages albumPages trackPages all_pages
      = (none, ["Error getting results: " ++ r.body.errorMessage]) := by
  simp [search_tracks, hbad]

/-- Witness for C8 at a 401 search response followed by a would-be-successful
response that is never requested. -/
theorem C8_search_non200_returns_none_no_retry_witness :
    search_tracks
        [⟨401, ⟨"The access token expired", none, none, none⟩⟩,
         ⟨200, ⟨"", some ⟨[⟨"A", "uriA"⟩], none⟩, none, none⟩⟩]
        [] [] [] false
      = (none, ["Error getting results: The access token expired"]) :=
  C8_search_non200_returns_none_no_retry
    ⟨401, ⟨"The access token expired", none, none, none⟩⟩
    [⟨200, ⟨"", some ⟨[⟨"A", "uriA"⟩], none⟩, none, none⟩⟩] [] [] [] false
    (by decide)

/-- Retried call of get_available_devices: with has_retried=True a 401 yields
the failure string, anything else the devices numbered from 1. -/
theorem get_available_devices_retried (transport : Bool → DevicesResp) :
    get_available_devices transport true
      = if (transport true).status = 401 then
          .failure ("Failed to refresh access: Type: \"get\" | Command: \"devices\" | Code: " ++
            toString (transport true).status ++ " " ++ "| Text: " ++ (transport true).text)
        else .deviceMap (numberDevices 0 (transport true).devices) := by
  unfold get_available_devices
  simp

/-- Claim C10: a 401 on the recently-played request always makes
get_recently_played return the result of get_available_devices(True) — the
local has_retried flag is False at the check — and that result is never a
recently-played items value (it is a failure string or a device-list
mapping). -/
theorem C10_recently_played_401_dispatches_devices (recent : RecentResp)
    (transport : Bool → DevicesResp) (fmt : String → String)
    (as_json all_data : Bool) (h401 : recent.status = 401) :
    get_recently_played recent transport fmt as_json all_data
      = get_available_devices transport true ∧
    (∀ xs, get_available_devices transport true ≠ PlayerReturn.recentItems xs) ∧
    (∀ xs, get_available_devices transport true ≠ PlayerReturn.recentRaw xs) := by
  refine ⟨?_, ?_, ?_⟩
  · simp [get_recently_played, h401]
  · intro xs
    rw [get_available_devices_retried]
    split <;> simp
  · intro xs
    rw [get_available_devices_retried]
    split <;> simp

/-- Witness for C10: a 401 recently-played response with a devices endpoint
answering 200 returns the device-list mapping keyed from 1. -/
theorem C10_recently_played_401_dispatches_devices_witness :
    get_recently_played ⟨401, []⟩ (fun _b => ⟨200, "", [⟨"Echo", "dev1"⟩]⟩)
        (fun s => s) false false
      = get_available_devices (fun _b => ⟨200, "", [⟨"Echo", "dev1"⟩]⟩) true :=
  (C10_recently_played_401_dispatches_devices ⟨401, []⟩
    (fun _b => ⟨200, "", [⟨"Echo", "dev1"⟩]⟩) (fun s => s) false false rfl).1

/-- A cache hit makes the user-token fetch return the cached token unchanged
with zero endpoint calls. -/
theorem user_token_cached (e : AuthParams → AuthResp) (now : Nat)
    (st : SpotifyState) (t rt : String) (hrt : st.refresh_token = some rt)
    (ht : st.access_token = some t)
    (he : tokenNotExpired st.token_expires now = true) :
    _get_user_access_token e now st = .ok (some t, st, 0) := by
  unfold _get_user_access_token _get_user_auth_params
  rw [hrt]
  unfold _get_access_token cacheHit
  simp [ht, he]

/-- A retried submit_command call (has_retried=True) with a cache hit:
terminal result of the second attempt, token reused, no endpoint call. -/
theorem submit_command_retried_cached {J : Type} (e : AuthParams → AuthResp)
    (player : Bool → Option String → PlayerResp J) (now : Nat) (st : SpotifyState)
    (t rt : String) (method : String) (hm : method ∈ METHODS)
    (hrt : st.refresh_token = some rt) (ht : st.access_token = some t)
    (he : tokenNotExpired st.token_expires now = true) :
    submit_command e player now st method true = .ok
      { ok := resp_ok (player true (some t)).status
        payload := if (player true (some t)).status = 204 then .success
          else .json (player true (some t)).body
        finalState := st
        tokensUsed := [some t]
        statuses := [(player true (some t)).status]
        authCalls := 0
        lastStatus := (player true (some t)).status } := by
  have htok := user_token_cached e now st t rt hrt ht he
  rw [submit_command, if_pos hm, htok]
  simp

/-- Claim C3 as amended: a 401 on the first attempt makes submit_command
resubmit the identical request exactly once (two attempts total, never
three); the retry acquires its token through the normal cache-first fetch, so
a still-unexpired cached token is reused and the authorization endpoint is
not contacted at all (no forced fresh fetch); a 401 on the retry too yields
ok=false. -/
theorem C3_amended_single_retry {J : Type} (e : AuthParams → AuthResp)
    (player : Bool → Option String → PlayerResp J) (now : Nat) (st : SpotifyState)
    (t rt : String) (method : String) (hm : method ∈ METHODS)
    (hrt : st.refresh_token = some rt) (ht : st.access_token = some t)
    (he : tokenNotExpired st.token_expires now = true)
    (h1 : (player false (some t)).status = 401) :
    submit_command e player now st method false = .ok
      { ok := resp_ok (player true (some t)).status
        payload := if (player true (some t)).status = 204 then .success
          else .json (player true (some t)).body
        finalState := st
        tokensUsed := [some t, some t]
        statuses := [401, (player true (some t)).status]
        authCalls := 0
        lastStatus := (player true (some t)).status } ∧
    ((player true (some t)).status = 401 →
      resp_ok (player true (some t)).status = false) := by
  have htok := user_token_cached e now st t rt hrt ht he
  have hret := submit_command_retried_cached e player now st t rt method hm hrt ht he
  constructor
  · rw [submit_command, if_pos hm, htok]
    simp only []
    rw [dif_pos ⟨h1, trivial⟩, hret]
    simp [h1]
  · intro h2
    rw [h2]
    rfl

/-- Witness for the amended C3: cached token T, both player attempts answer
401; the outcome is ok=false with exactly two attempts, both carrying T, and
zero authorization-endpoint calls. -/
theorem C3_amended_single_retry_witness :
    submit_command (fun _a => ⟨500, none, 0⟩)
        (fun _b _tok => (⟨401, 7⟩ : PlayerResp Nat)) 0
        ⟨some "R", some "T", some 100⟩ "get" false
      = .ok { ok := false, payload := .json 7
              finalState := ⟨some "R", some "T", some 100⟩
              tokensUsed := [some "T", some "T"], statuses := [401, 401]
              authCalls := 0, lastStatus := 401 } :=
  (C3_amended_single_retry (fun _a => ⟨500, none, 0⟩)
    (fun _b _tok => (⟨401, 7⟩ : PlayerResp Nat)) 0 ⟨some "R", some "T", some 100⟩
    "T" "R" "get" (by decide) rfl rfl rfl rfl).1

/-- Counterexample to claim C3: the retry does not force a fresh token fetch.
With cached token T (unexpired) and a player endpoint answering 401 twice,
both attempts carry the same cached token T and the authorization endpoint is
called zero times. -/
theorem C3_counterexample_cached_token_reused :
    submit_command (fun _a => ⟨200, some "FRESH", 3600⟩)
        (fun _b _tok => (⟨401, 7⟩ : PlayerResp Nat)) 0
        ⟨some "R", some "T", some 100⟩ "put" false
      = .ok { ok := false, payload := .json 7
              finalState := ⟨some "R", some "T", some 100⟩
              tokensUsed := [some "T", some "T"], statuses := [401, 401]
              authCalls := 0, lastStatus := 401 } := by
  have hret := submit_command_retried_cached (fun _a => ⟨200, some "FRESH", 3600⟩)
    (fun _b _tok => (⟨401, 7⟩ : PlayerResp Nat)) 0 ⟨some "R", some "T", some 100⟩
    "T" "R" "put" (by decide) rfl rfl rfl
  have htok := user_token_cached (fun _a => ⟨200, some "FRESH", 3600⟩) 0
    ⟨some "R", some "T", some 100⟩ "T" "R" rfl rfl rfl
  rw [submit_command, if_pos (show ("put" : String) ∈ METHODS by decide), htok]
  simp only []
  rw [dif_pos (by simp), hret]
  rfl

/-- A retried submit_command call always yields ok = resp_ok of the terminal
status (requests' ok of the last response). -/
theorem submit_command_ok_retried {J : Type} (e : AuthParams → AuthResp)
    (player : Bool → Option String → PlayerResp J) (now : Nat) (st : SpotifyState)
    (method : String) (hm : method ∈ METHODS) :
    ∀ out : DispatchOut J, submit_command e player now st method true = .ok out →
      out.ok = resp_ok out.lastStatus := by
  intro out h
  rw [submit_command, if_pos hm] at h
  rcases hu : _get_user_access_token e now st with pe | ⟨tok, st1, n1⟩ <;>
    rw [hu] at h <;> dsimp only [] at h
  · exact absurd h (by simp)
  · rw [dif_neg (by simp)] at h
    cases h
    rfl

/-- A first-attempt submit_command call always yields ok = resp_ok of the
terminal status. -/
theorem submit_command_ok_first {J : Type} (e : AuthParams → AuthResp)
    (player : Bool → Option String → PlayerResp J) (now : Nat) (st : SpotifyState)
    (method : String) (hm : method ∈ METHODS) :
    ∀ out : DispatchOut J, submit_command e player now st method false = .ok out →
      out.ok = resp_ok out.lastStatus := by
  intro out h
  rw [submit_command, if_pos hm] at h
  rcases hu : _get_user_access_token e now st with pe | ⟨tok, st1, n1⟩ <;>
    rw [hu] at h <;> dsimp only [] at h
  · exact absurd h (by simp)
  · by_cases h401 : (player false tok).status = 401
    · rw [dif_pos ⟨h401, rfl⟩] at h
      rcases hr : submit_command e player now st1 method true with pe | out' <;> rw [hr] at h
      · exact absurd h (by simp)
      · cases h
        exact submit_command_ok_retried e player now st1 method hm out' hr
    · rw [dif_neg (by simp [h401])] at h
      cases h
      rfl

/-- A retried src/client.py submit_command call always yields ok = (terminal
status == 204). -/
theorem CP_submit_command_ok_retried (e : AuthParams → AuthResp)
    (player : Bool → Option String → CPResp) (refreshTok : Option String)
    (method command : String) (hm : method ∈ METHODS) :
    ∀ out : CPOut, CP_submit_command e player refreshTok method command true = .ok out →
      out.ok = decide (out.lastStatus = 204) := by
  intro out h
  rw [CP_submit_command, if_pos hm] at h
  rcases hu : CP_get_user_access_token e refreshTok with pe | tok <;>
    rw [hu] at h <;> dsimp only [] at h
  · exact absurd h (by simp)
  · rw [dif_neg (by simp)] at h
    cases h
    rfl

/-- A first-attempt src/client.py submit_command call always yields
ok = (terminal status == 204). -/
theorem CP_submit_command_ok_first (e : AuthParams → AuthResp)
    (player : Bool → Option String → CPResp) (refreshTok : Option String)
    (method command : String) (hm : method ∈ METHODS) :
    ∀ out : CPOut, CP_submit_command e player refreshTok method command false = .ok out →
      out.ok = decide (out.lastStatus = 204) := by
  intro out h
  rw [CP_submit_command, if_pos hm] at h
  rcases hu : CP_get_user_access_token e refreshTok with pe | tok <;>
    rw [hu] at h <;> dsimp only [] at h
  · exact absurd h (by simp)
  · by_cases h401 : (player false tok).status = 401
    · rw [dif_pos ⟨h401, rfl⟩] at h
      rcases hr : CP_submit_command e player refreshTok method command true with pe | out' <;>
        rw [hr] at h
      · exact absurd h (by simp)
      · cases h
        exact CP_submit_command_ok_retried e player refreshTok method command hm out' hr
    · rw [dif_neg (by simp [h401])] at h
      cases h
      rfl

/-- Claim C1 as amended: for get/post/put dispatches, in the
src/spotifyclient/client.py variant ok is true iff the terminal response
status is below 400 (requests' Response.ok) — so a terminal 204 yields
ok=true but so does a terminal 200 — while in the src/client.py variant ok is
true iff the terminal status equals 204. -/
theorem C1_amended_ok_semantics {J : Type} (e1 e2 : AuthParams → AuthResp)
    (p1 : Bool → Option String → PlayerResp J) (p2 : Bool → Option String → CPResp)
    (now : Nat) (st : SpotifyState) (refreshTok : Option String)
    (method command : String) (hm : method ∈ METHODS) :
    (∀ out, submit_command e1 p1 now st method false = .ok out →
      (out.ok = true ↔ out.lastStatus < 400)) ∧
    (∀ out, CP_submit_command e2 p2 refreshTok method command false = .ok out →
      (out.ok = true ↔ out.lastStatus = 204)) := by
  constructor
  · intro out h
    rw [submit_command_ok_first e1 p1 now st method hm out h]
    simp [resp_ok]
  · intro out h
    rw [CP_submit_command_ok_first e2 p2 refreshTok method command hm out h]
    simp

/-- Counterexample to claim C1: in the src/spotifyclient/client.py variant a
terminal 200 response yields ok=true, not ok=false. Cached unexpired token T,
player answering 200 with body 7: submit_command returns ok=true with
terminal status 200. -/
theorem C1_counterexample_ok_true_on_200 :
    submit_command (fun _a => ⟨500, none, 0⟩)
        (fun _b _tok => (⟨200, 7⟩ : PlayerResp Nat)) 0
        ⟨some "R", some "T", some 100⟩ "get" false
      = .ok { ok := true, payload := .json 7
              finalState := ⟨some "R", some "T", some 100⟩
              tokensUsed := [some "T"], statuses := [200], authCalls := 0
              lastStatus := 200 } := by
  have htok := user_token_cached (fun _a => ⟨500, none, 0⟩) 0
    ⟨some "R", some "T", some 100⟩ "T" "R" rfl rfl rfl
  rw [submit_command, if_pos (show ("get" : String) ∈ METHODS by decide), htok]
  simp [resp_ok]

/-- Concrete dispatch used by the C1 witness: terminal status 204. -/
theorem submit_command_concrete_204 :
    submit_command (fun _a => ⟨500, none, 0⟩)
        (fun _b _tok => (⟨204, 7⟩ : PlayerResp Nat)) 0
        ⟨some "R", some "T", some 100⟩ "get" false
      = .ok { ok := true, payload := .success
              finalState := ⟨some "R", some "T", some 100⟩
              tokensUsed := [some "T"], statuses := [204], authCalls := 0
              lastStatus := 204 } := by
  have htok := user_token_cached (fun _a => ⟨500, none, 0⟩) 0
    ⟨some "R", some "T", some 100⟩ "T" "R" rfl rfl rfl
  rw [submit_command, if_pos (show ("get" : String) ∈ METHODS by decide), htok]
  simp [resp_ok]

/-- Concrete src/client.py dispatch used by the C1 witness: terminal status
200 with empty response text, so ok=false. -/
theorem CP_submit_command_concrete_200 :
    CP_submit_command (fun _a => ⟨200, some "T", 3600⟩)
        (fun _b _tok => (⟨200, ""⟩ : CPResp)) (some "R") "get" "devices" false
      = .ok { ok := false
              message := "Method: get | Command: devices | Code: " ++ toString (200 : Nat)
              tokensUsed := [some "T"], statuses := [200], lastStatus := 200 } := by
  rw [CP_submit_command, if_pos (show ("get" : String) ∈ METHODS by decide)]
  simp [CP_get_user_access_token, CP_get_access_token]

/-- Witness for the amended C1: the spotifyclient dispatch at terminal 204
satisfies ok=true iff 204 < 400, and the src/client.py dispatch at terminal
200 satisfies ok=true iff 200 = 204 (both sides false). -/
theorem C1_amended_ok_semantics_witness :
    (({ ok := true, payload := .success
        finalState := ⟨some "R", some "T", some 100⟩
        tokensUsed := [some "T"], statuses := [204], authCalls := 0
        lastStatus := 204 } : DispatchOut Nat).ok = true ↔ (204 : Nat) < 400) ∧
    (({ ok := false
        message := "Method: get | Command: devices | Code: " ++ toString (200 : Nat)
        tokensUsed := [some "T"], statuses := [200], lastStatus := 200 } : CPOut).ok = true
      ↔ (200 : Nat) = 204) :=
  ⟨(C1_amended_ok_semantics (fun _a => ⟨500, none, 0⟩) (fun _a => ⟨200, some "T", 3600⟩)
      (fun _b _tok => (⟨204, 7⟩ : PlayerResp Nat)) (fun _b _tok => (⟨200, ""⟩ : CPResp))
      0 ⟨some "R", some "T", some 100⟩ (some "R") "get" "devices" (by decide)).1
      _ submit_command_concrete_204,
   (C1_amended_ok_semantics (fun _a => ⟨500, none, 0⟩) (fun _a => ⟨200, some "T", 3600⟩)
      (fun _b _tok => (⟨204, 7⟩ : PlayerResp Nat)) (fun _b _tok => (⟨200, ""⟩ : CPResp))
      0 ⟨some "R", some "T", some 100⟩ (some "R") "get" "devices" (by decide)).2
      _ CP_submit_command_concrete_200⟩
